import Mathlib

/-!
Verification of the Traewelling export tool (`fetchTraewellingData.js`).

The script is a linear fetch–paginate–transform–write pipeline.  We embed the
JSON data it manipulates as an inductive `Json` type, model JavaScript
property access (including the `TypeError` thrown when reading a property of
`null`/`undefined`), the `||`-defaulting idiom, the pagination loop of `run`
(lines 93–132), the date range computation (lines 139–141), the
`exportData` object literal (lines 164–237) and the guarded write
(lines 135–246, 247–252).  Fallible evaluation is `Except Unit`, the error
being an exception that the top-level `catch` of `run` absorbs.
-/

/-- A JSON value, as produced by `JSON.parse` on an API response body. -/
inductive Json where
  | null
  | bool (b : Bool)
  | num (n : Int)
  | str (s : String)
  | arr (elems : List Json)
  | obj (fields : List (String × Json))
deriving Repr, Inhabited

/-- First binding of a key in a JSON object's field list. -/
def lookupField : List (String × Json) → String → Option Json
  | [], _ => none
  | (k, v) :: fs, key => if k = key then some v else lookupField fs key

/-- Non-throwing property read: `some v` when `j` is an object carrying the
key, `none` (JavaScript `undefined`) otherwise.  Used to inspect outputs. -/
def Json.get (j : Json) (key : String) : Option Json :=
  match j with
  | .obj fs => lookupField fs key
  | _ => none

/-- JavaScript truthiness of a defined value: `null`, `false`, `0` and the
empty string are falsy; arrays and objects are always truthy. -/
def truthy : Json → Bool
  | .null => false
  | .bool b => b
  | .num n => n != 0
  | .str s => s ≠ ""
  | .arr _ => true
  | .obj _ => true

/-- The `x || d` defaulting idiom applied to a possibly-undefined value. -/
def jsOr (v : Option Json) (d : Json) : Json :=
  match v with
  | none => d
  | some x => if truthy x then x else d

/-- An object literal whose field values may be `undefined` (`none`).
`JSON.stringify` drops object keys bound to `undefined`, so the serialized
document is exactly the object keeping only the defined fields. -/
def mkObj (fs : List (String × Option Json)) : Json :=
  .obj (fs.filterMap (fun p => p.2.map (fun v => (p.1, v))))

/-- Throwing property read `base.key`: reading a property of `undefined`
(`none`) or `null` throws a `TypeError` (modelled as `Except.error ()`);
reading a missing key of an object, or any key of another defined value,
yields `undefined` (`some` of `none`... here `Except.ok none`). -/
def pget (base : Option Json) (key : String) : Except Unit (Option Json) :=
  match base with
  | none => .error ()
  | some .null => .error ()
  | some (.obj fs) => .ok (lookupField fs key)
  | some _ => .ok none

/-- Outcome of one `fetchJSON` call for a statuses page: a parsed JSON body,
or a rejection (non-200 status, malformed JSON, or transport error). -/
inductive FetchResult where
  | success (j : Json)
  | failure
deriving Repr, Inhabited

/-- The guard at lines 108–111 of `run`: the loop keeps the page's items only
when the fetch succeeded and `statusesResponse.data` is an array (a `null` or
non-object response, a missing `data` field, and a non-array `data` all make
the loop `break`, as does a thrown fetch error). -/
def pageData : FetchResult → Option (List Json)
  | .failure => none
  | .success j =>
    match j with
    | .obj fs =>
      match lookupField fs ("data") with
      | some (.arr items) => some items
      | _ => none
    | _ => none

/-- Items a page contributes to the accumulator (empty for a rejected page). -/
def pageItems (r : FetchResult) : List Json :=
  (pageData r).getD []

/-- The pagination loop of `run` (lines 97–132) against the sequence of
responses the server would give to pages 1, 2, 3, …; a page beyond the end of
the list is a fetch failure.  Returns the accumulated `allStatuses` list and
the number of page requests issued (page numbers 1 … n are requested in
order, each exactly once).  The loop breaks on a failed fetch or invalid
shape, appends the page's items, and continues only while the page was
non-empty. -/
def paginateAux : List FetchResult → List Json × Nat
  | [] => ([], 1)
  | r :: rest =>
    match pageData r with
    | none => ([], 1)
    | some items =>
      if items.length > 0 then
        let p := paginateAux rest
        (items ++ p.1, p.2 + 1)
      else (items, 1)

/-- Accumulated statuses and number of requests of the whole pagination. -/
def paginate (resps : List FetchResult) : List Json × Nat :=
  paginateAux resps

/-- `Math.min(...dates)` on the epoch timestamps (line 140); `none` is the
empty spread, which JavaScript maps to `Infinity` and `run` never hits. -/
def mathMin : List Int → Option Int
  | [] => none
  | t :: ts => some (ts.foldl min t)

/-- `Math.max(...dates)` on the epoch timestamps (line 141). -/
def mathMax : List Int → Option Int
  | [] => none
  | t :: ts => some (ts.foldl max t)

/-- One element of `exportData.data` (lines 191–236): the `{ status, trip }`
pair built from one status record.  Property reads follow the source: plain
reads of `status` throw only when the record itself is `null`; the `trip`
section dereferences `status.train`, `status.train.origin` and
`status.train.destination` without any guard, so a missing or `null` `train`,
`origin` or `destination` throws; `body`, `bodyMentions`, `tags` and
`stopovers` go through `|| ""` / `|| []` defaulting. -/
def mapStatus (s : Json) : Except Unit Json := do
  let sid ← pget (some s) ("id")
  let sbody ← pget (some s) ("body")
  let sbodyMentions ← pget (some s) ("bodyMentions")
  let suser ← pget (some s) ("user")
  let susername ← pget (some s) ("username")
  let sprofilePicture ← pget (some s) ("profilePicture")
  let spreventIndex ← pget (some s) ("preventIndex")
  let sbusiness ← pget (some s) ("business")
  let svisibility ← pget (some s) ("visibility")
  let slikes ← pget (some s) ("likes")
  let sliked ← pget (some s) ("liked")
  let sisLikable ← pget (some s) ("isLikable")
  let sclient ← pget (some s) ("client")
  let screatedAt ← pget (some s) ("createdAt")
  let strain ← pget (some s) ("train")
  let sevent ← pget (some s) ("event")
  let suserDetails ← pget (some s) ("userDetails")
  let stags ← pget (some s) ("tags")
  let ttrip ← pget strain ("trip")
  let tcategory ← pget strain ("category")
  let tnumber ← pget strain ("number")
  let tlineName ← pget strain ("lineName")
  let tjourneyNumber ← pget strain ("journeyNumber")
  let torig ← pget strain ("origin")
  let oid ← pget torig ("id")
  let oname ← pget torig ("name")
  let olatitude ← pget torig ("latitude")
  let olongitude ← pget torig ("longitude")
  let oibnr ← pget torig ("ibnr")
  let orilIdentifier ← pget torig ("rilIdentifier")
  let tdest ← pget strain ("destination")
  let did ← pget tdest ("id")
  let dname ← pget tdest ("name")
  let dlatitude ← pget tdest ("latitude")
  let dlongitude ← pget tdest ("longitude")
  let dibnr ← pget tdest ("ibnr")
  let drilIdentifier ← pget tdest ("rilIdentifier")
  let tstopovers ← pget strain ("stopovers")
  return mkObj [
    ("status", some (mkObj [
      ("id", sid),
      ("body", some (jsOr sbody (.str ""))),
      ("bodyMentions", some (jsOr sbodyMentions (.arr []))),
      ("user", suser),
      ("username", susername),
      ("profilePicture", sprofilePicture),
      ("preventIndex", spreventIndex),
      ("business", sbusiness),
      ("visibility", svisibility),
      ("likes", slikes),
      ("liked", sliked),
      ("isLikable", sisLikable),
      ("client", sclient),
      ("createdAt", screatedAt),
      ("train", strain),
      ("event", sevent),
      ("userDetails", suserDetails),
      ("tags", some (jsOr stags (.arr [])))])),
    ("trip", some (mkObj [
      ("id", ttrip),
      ("category", tcategory),
      ("number", tnumber),
      ("lineName", tlineName),
      ("journeyNumber", tjourneyNumber),
      ("origin", some (mkObj [
        ("id", oid),
        ("name", oname),
        ("latitude", olatitude),
        ("longitude", olongitude),
        ("ibnr", oibnr),
        ("rilIdentifier", orilIdentifier)])),
      ("destination", some (mkObj [
        ("id", did),
        ("name", dname),
        ("latitude", dlatitude),
        ("longitude", dlongitude),
        ("ibnr", dibnr),
        ("rilIdentifier", drilIdentifier)])),
      ("stopovers", some (jsOr tstopovers (.arr [])))]))]

/-- The `exportData` object literal of `run` (lines 164–237).  `fromS`, `toS`
and `exportedAtS` stand for `earliest.toISOString()`, `latest.toISOString()`
and `new Date().toISOString()` — the last one is the current wall-clock time
at the moment the literal is evaluated, not a function of the fetched data.
The `meta.user` block reads the profile's `data` member; six of its fields
are fixed literals. -/
def exportData (userProfile : Json) (allStatuses : List Json)
    (fromS toS exportedAtS : String) : Except Unit Json := do
  let d ← pget (some userProfile) ("data")
  let uid ← pget d ("id")
  let udisplayName ← pget d ("displayName")
  let uusername ← pget d ("username")
  let uprofilePicture ← pget d ("profilePicture")
  let utrainDistance ← pget d ("trainDistance")
  let utrainDuration ← pget d ("trainDuration")
  let upoints ← pget d ("points")
  let umastodonUrl ← pget d ("mastodonUrl")
  let uprivateProfile ← pget d ("privateProfile")
  let upreventIndex ← pget d ("preventIndex")
  let ulikesEnabled ← pget d ("likes_enabled")
  let entries ← allStatuses.mapM mapStatus
  return mkObj [
    ("meta", some (mkObj [
      ("user", some (mkObj [
        ("id", uid),
        ("displayName", udisplayName),
        ("username", uusername),
        ("profilePicture", uprofilePicture),
        ("trainDistance", utrainDistance),
        ("totalDistance", utrainDistance),
        ("trainDuration", utrainDuration),
        ("totalDuration", utrainDuration),
        ("points", upoints),
        ("mastodonUrl", umastodonUrl),
        ("privateProfile", uprivateProfile),
        ("preventIndex", upreventIndex),
        ("likes_enabled", ulikesEnabled),
        ("pointsEnabled", some (.bool true)),
        ("userInvisibleToMe", some (.bool false)),
        ("muted", some (.bool false)),
        ("following", some (.bool false)),
        ("followPending", some (.bool false)),
        ("followedBy", some (.bool false))])),
      ("from", some (.str fromS)),
      ("to", some (.str toS)),
      ("exportedAt", some (.str exportedAtS))])),
    ("data", some (.arr entries))]

mutual
/-- String coercion of a JSON value, as in the template literal at line 240
(`String(v)`): arrays join their elements with commas, `null` elements
becoming empty. -/
def jsStrJ : Json → String
  | .null => "null"
  | .bool true => "true"
  | .bool false => "false"
  | .num n => toString n
  | .str s => s
  | .arr es => jsStrL es
  | .obj _ => "[object Object]"
/-- Comma join of an array's elements under `String` coercion. -/
def jsStrL : List Json → String
  | [] => ""
  | [.null] => ""
  | [e] => jsStrJ e
  | .null :: e :: es => "," ++ jsStrL (e :: es)
  | e :: e2 :: es => jsStrJ e ++ "," ++ jsStrL (e2 :: es)
end

/-- Coercion of a possibly-undefined value inside a template literal. -/
def jsStr : Option Json → String
  | none => "undefined"
  | some j => jsStrJ j

/-- Exactly `n` decimal digits from the front of the character list,
accumulated left to right. -/
def parseNDigits : Nat → Nat → List Char → Option (Nat × List Char)
  | 0, acc, cs => some (acc, cs)
  | n + 1, acc, c :: cs =>
    if c.isDigit then parseNDigits n (acc * 10 + (c.toNat - 48)) cs else none
  | _ + 1, _, [] => none

/-- One mandatory separator character. -/
def parseSep (c : Char) : List Char → Option (List Char)
  | c2 :: cs => if c2 = c then some cs else none
  | [] => none

/-- Length of a Gregorian month, for validating date components the way
`new Date` does (out-of-range components give an Invalid Date). -/
def daysInMonth (y mo : Nat) : Nat :=
  if mo = 4 ∨ mo = 6 ∨ mo = 9 ∨ mo = 11 then 30
  else if mo = 2 then
    (if (y % 4 = 0 ∧ y % 100 ≠ 0) ∨ y % 400 = 0 then 29 else 28)
  else 31

/-- Days from the Unix epoch to a Gregorian calendar day, via the Julian day
number (all intermediate arithmetic stays in `Nat`; the only negatives are
dates before 1970). -/
def epochDays (y mo dy : Nat) : Int :=
  let a := (14 - mo) / 12
  let y2 := y + 4800 - a
  let m2 := mo + 12 * a - 3
  ((dy + (153 * m2 + 2) / 5 + 365 * y2 + y2 / 4 + y2 / 400 : Nat) : Int)
    - ((y2 / 100 : Nat) : Int) - 32045 - 2440588

/-- Optional `:SS[.sss]` tail of a time, as (seconds, milliseconds, rest). -/
def parseSecondsFrac : List Char → Option (Nat × Nat × List Char)
  | ':' :: cs => do
    let (se, r) ← parseNDigits 2 0 cs
    match r with
    | '.' :: cs2 => do
      let (ms, r2) ← parseNDigits 3 0 cs2
      pure (se, ms, r2)
    | _ => pure (se, 0, r)
  | cs => pure (0, 0, cs)

/-- Trailing UTC offset: `Z` or `±HH:MM`, as its value in milliseconds;
it must end the string. -/
def parseOffset : List Char → Option Int
  | ['Z'] => some 0
  | '+' :: cs => do
    let (oh, r) ← parseNDigits 2 0 cs
    let r2 ← parseSep (':') r
    let (om, r3) ← parseNDigits 2 0 r2
    guard (oh ≤ 23 ∧ om ≤ 59 ∧ r3 = [])
    pure ((oh * 3600000 + om * 60000 : Nat) : Int)
  | '-' :: cs => do
    let (oh, r) ← parseNDigits 2 0 cs
    let r2 ← parseSep (':') r
    let (om, r3) ← parseNDigits 2 0 r2
    guard (oh ≤ 23 ∧ om ≤ 59 ∧ r3 = [])
    pure (-((oh * 3600000 + om * 60000 : Nat) : Int))
  | _ => none

/-- Time value (epoch milliseconds) of `new Date(string)` for the ECMA-262
date-time string format, `none` being an Invalid Date.  Accepted forms:
`YYYY-MM-DD` (UTC midnight, as the standard prescribes for date-only
strings) and `YYYY-MM-DDTHH:MM[:SS[.sss]]` with an explicit `Z` or `±HH:MM`
offset.  Date-time forms without an offset are local time in JavaScript and
depend on the host timezone, and year-only/month-only forms and the
engine-specific fallback formats are rare in API data, so the model
conservatively maps all of those to an Invalid Date: the model never
certifies as valid a string the engine would reject. -/
def parseJsDate (s : String) : Option Int := do
  let (y, r1) ← parseNDigits 4 0 s.data
  let r2 ← parseSep ('-') r1
  let (mo, r3) ← parseNDigits 2 0 r2
  let r4 ← parseSep ('-') r3
  let (dy, r5) ← parseNDigits 2 0 r4
  guard (1 ≤ mo ∧ mo ≤ 12)
  guard (1 ≤ dy ∧ dy ≤ daysInMonth y mo)
  let base := epochDays y mo dy * 86400000
  match r5 with
  | [] => pure base
  | _ => do
    let r6 ← parseSep ('T') r5
    let (hh, r7) ← parseNDigits 2 0 r6
    let r8 ← parseSep (':') r7
    let (mi, r9) ← parseNDigits 2 0 r8
    guard (hh ≤ 23 ∧ mi ≤ 59)
    let (se, ms, r10) ← parseSecondsFrac r9
    guard (se ≤ 59)
    let off ← parseOffset r10
    pure (base + ((hh * 3600000 + mi * 60000 + se * 1000 + ms : Nat) : Int) - off)

/-- Time value of `new Date(v)` (line 139) for each JSON shape `createdAt`
can take: `undefined` and plain objects give an Invalid Date (`none`),
`null` and booleans coerce to 0/1, numbers are epoch milliseconds, strings
are parsed, and arrays go through their string coercion first. -/
def jsDate : Option Json → Option Int
  | none => none
  | some .null => some 0
  | some (.bool true) => some 1
  | some (.bool false) => some 0
  | some (.num n) => some n
  | some (.str s) => parseJsDate s
  | some (.arr es) => parseJsDate (jsStrL es)
  | some (.obj _) => none

/-- `Math.min(...dates)` over Date time values (line 140): `NaN` (`none`)
as soon as any date is invalid. -/
def minSpread (l : List (Option Int)) : Option Int :=
  match l.mapM id with
  | none => none
  | some ts => mathMin ts

/-- `Math.max(...dates)` over Date time values (line 141). -/
def maxSpread (l : List (Option Int)) : Option Int :=
  match l.mapM id with
  | none => none
  | some ts => mathMax ts

/-- `Date.prototype.toISOString` (first reached at line 144): throws a
`RangeError` on an Invalid Date; for a valid date the rendered text is
abstracted as the decimal time value — no claim inspects the rendered
characters, only whether the call throws. -/
def jsToISOString : Option Int → Except Unit String
  | none => .error ()
  | some n => .ok (toString n)

/-- The body of `run` after the profile fetch succeeded (lines 88–246),
under the top-level `try`: read `userProfile.data.id` and `.username`
(lines 88–89, throwing on a missing or `null` `data`), paginate, and when at
least one status was accumulated compute the date range (lines 139–145: map
each status to `new Date(s.createdAt)` — a throwing property read — take
`Math.min`/`Math.max` over the spread, and render both via `toISOString`,
which throws a `RangeError` when any date is invalid), then build
`exportData` and write it to `{username}_statuses.json` (lines 164–245);
with zero statuses nothing is computed or written.  The result is the
written `(file name, document)`, `none` when no write happened, and
`Except.error` when an exception escaped to the top-level `catch`.  `nowS`
abstracts the export wall-clock timestamp of line 189.  The month
statistics of lines 147–161 cannot throw (`getFullYear` on an Invalid Date
is `NaN`, not an error) and feed only console output, so they are not
modelled. -/
def runBody (userProfile : Json) (resps : List FetchResult)
    (nowS : String) : Except Unit (Option (String × Json)) := do
  let d ← pget (some userProfile) ("data")
  let _userId ← pget d ("id")
  let uname ← pget d ("username")
  let allStatuses := (paginate resps).1
  if allStatuses.length > 0 then do
    let dates ← allStatuses.mapM
      (fun s => (pget (some s) ("createdAt")).map jsDate)
    let fromS ← jsToISOString (minSpread dates)
    let toS ← jsToISOString (maxSpread dates)
    let doc ← exportData userProfile allStatuses fromS toS nowS
    return some (jsStr uname ++ ("_statuses.json"), doc)
  else
    return none

/-- Path read into a JSON document, for inspecting outputs. -/
def getAt (j : Json) : List String → Option Json
  | [] => some j
  | k :: ks =>
    match j.get k with
    | some v => getAt v ks
    | none => none

/-- Reference lookup that `Json.get ∘ mkObj` computes: a key bound to an
undefined value is dropped, any other binding is returned at first match. -/
def lookupOpt : List (String × Option Json) → String → Option Json
  | [], _ => none
  | (k2, o) :: fs, k =>
    if k2 = k then
      match o with
      | some v => some v
      | none => lookupOpt fs k
    else lookupOpt fs k

theorem get_mkObj (fs : List (String × Option Json)) (k : String) :
    (mkObj fs).get k = lookupOpt fs k := by
  induction fs with
  | nil => rfl
  | cons p fs ih =>
    obtain ⟨k2, o⟩ := p
    cases o with
    | none =>
      show (mkObj fs).get k = _
      rw [ih, lookupOpt]
      split <;> rfl
    | some v =>
      show Json.get (.obj ((k2, v) :: _)) k = _
      rw [Json.get, lookupField, lookupOpt]
      split
      · rfl
      · exact ih

theorem bindOk {α β : Type} {x : Except Unit α} {f : α → Except Unit β} {b : β}
    (h : x >>= f = .ok b) : ∃ a, x = .ok a ∧ f a = .ok b := by
  cases x with
  | ok a => exact ⟨a, rfl, h⟩
  | error e => exact Except.noConfusion h

theorem okBind {α β : Type} (a : α) (f : α → Except Unit β) :
    (Except.ok a >>= f) = f a := rfl

theorem foldl_min_le_init : ∀ (ts : List Int) (t : Int), ts.foldl min t ≤ t := by
  intro ts
  induction ts with
  | nil => intro t; simp
  | cons a ts ih =>
    intro t
    calc ts.foldl min (min t a) ≤ min t a := ih _
      _ ≤ t := min_le_left _ _

theorem foldl_min_le_mem : ∀ (ts : List Int) (t x : Int), x ∈ ts → ts.foldl min t ≤ x := by
  intro ts
  induction ts with
  | nil => intro t x hx; cases hx
  | cons a ts ih =>
    intro t x hx
    rcases List.mem_cons.mp hx with rfl | hx
    · calc ts.foldl min (min t x) ≤ min t x := foldl_min_le_init _ _
        _ ≤ x := min_le_right _ _
    · exact ih _ _ hx

theorem foldl_min_mem_or : ∀ (ts : List Int) (t : Int),
    ts.foldl min t = t ∨ ts.foldl min t ∈ ts := by
  intro ts
  induction ts with
  | nil => intro t; exact Or.inl rfl
  | cons a ts ih =>
    intro t
    rcases ih (min t a) with h | h
    · rw [List.foldl_cons, h]
      rcases min_choice t a with h2 | h2
      · exact Or.inl h2
      · exact Or.inr (by rw [h2]; exact List.mem_cons_self _ _)
    · exact Or.inr (List.mem_cons_of_mem _ h)

theorem foldl_max_ge_init : ∀ (ts : List Int) (t : Int), t ≤ ts.foldl max t := by
  intro ts
  induction ts with
  | nil => intro t; simp
  | cons a ts ih =>
    intro t
    calc t ≤ max t a := le_max_left _ _
      _ ≤ ts.foldl max (max t a) := ih _

theorem foldl_max_ge_mem : ∀ (ts : List Int) (t x : Int), x ∈ ts → x ≤ ts.foldl max t := by
  intro ts
  induction ts with
  | nil => intro t x hx; cases hx
  | cons a ts ih =>
    intro t x hx
    rcases List.mem_cons.mp hx with rfl | hx
    · calc x ≤ max t x := le_max_right _ _
        _ ≤ ts.foldl max (max t x) := foldl_max_ge_init _ _
    · exact ih _ _ hx

theorem foldl_max_mem_or : ∀ (ts : List Int) (t : Int),
    ts.foldl max t = t ∨ ts.foldl max t ∈ ts := by
  intro ts
  induction ts with
  | nil => intro t; exact Or.inl rfl
  | cons a ts ih =>
    intro t
    rcases ih (max t a) with h | h
    · rw [List.foldl_cons, h]
      rcases max_choice t a with h2 | h2
      · exact Or.inl h2
      · exact Or.inr (by rw [h2]; exact List.mem_cons_self _ _)
    · exact Or.inr (List.mem_cons_of_mem _ h)

/-- C5: for every non-empty list of creation timestamps, the computed
earliest date (`Math.min` over the parsed dates, line 140) is the minimum of
the timestamps and the computed latest date (`Math.max`, line 141) is the
maximum; for a single-record list the two coincide. -/
theorem dateRange_min_max (dates : List Int) (hne : dates ≠ []) :
    ∃ m M, mathMin dates = some m ∧ mathMax dates = some M ∧
      m ∈ dates ∧ M ∈ dates ∧ (∀ x ∈ dates, m ≤ x ∧ x ≤ M) ∧
      (dates.length = 1 → m = M) := by
  cases dates with
  | nil => exact absurd rfl hne
  | cons t ts =>
    refine ⟨ts.foldl min t, ts.foldl max t, rfl, rfl, ?_, ?_, ?_, ?_⟩
    · rcases foldl_min_mem_or ts t with h | h
      · rw [h]; exact List.mem_cons_self _ _
      · exact List.mem_cons_of_mem _ h
    · rcases foldl_max_mem_or ts t with h | h
      · rw [h]; exact List.mem_cons_self _ _
      · exact List.mem_cons_of_mem _ h
    · intro x hx
      rcases List.mem_cons.mp hx with rfl | hx
      · exact ⟨foldl_min_le_init _ _, foldl_max_ge_init _ _⟩
      · exact ⟨foldl_min_le_mem _ _ _ hx, foldl_max_ge_mem _ _ _ hx⟩
    · intro hlen
      have : ts = [] := by
        cases ts with
        | nil => rfl
        | cons a l => simp at hlen
      subst this
      rfl

/-- Witness for C5 at the timestamp list `[5, 2, 9]`. -/
theorem dateRange_min_max_witness :
    ([5, 2, 9] : List Int) ≠ [] ∧
    ∃ m M, mathMin [5, 2, 9] = some m ∧ mathMax [5, 2, 9] = some M ∧
      m ∈ [5, 2, 9] ∧ M ∈ [5, 2, 9] ∧ (∀ x ∈ ([5, 2, 9] : List Int), m ≤ x ∧ x ≤ M) ∧
      (([5, 2, 9] : List Int).length = 1 → m = M) :=
  ⟨by decide, dateRange_min_max [5, 2, 9] (by decide)⟩

/-- Successful `exportData` runs are exactly the evaluations of the object
literal of lines 164–237: every profile read and every status projection
succeeded, and the document is the literal built from those values. -/
theorem exportData_shape {p : Json} {ss : List Json} {f t n : String} {doc : Json}
    (h : exportData p ss f t n = .ok doc) :
    ∃ d uid udisplayName uusername uprofilePicture utrainDistance utrainDuration
      upoints umastodonUrl uprivateProfile upreventIndex ulikesEnabled entries,
      pget (some p) ("data") = .ok d ∧
      pget d ("id") = .ok uid ∧
      pget d ("displayName") = .ok udisplayName ∧
      pget d ("username") = .ok uusername ∧
      pget d ("profilePicture") = .ok uprofilePicture ∧
      pget d ("trainDistance") = .ok utrainDistance ∧
      pget d ("trainDuration") = .ok utrainDuration ∧
      pget d ("points") = .ok upoints ∧
      pget d ("mastodonUrl") = .ok umastodonUrl ∧
      pget d ("privateProfile") = .ok uprivateProfile ∧
      pget d ("preventIndex") = .ok upreventIndex ∧
      pget d ("likes_enabled") = .ok ulikesEnabled ∧
      ss.mapM mapStatus = .ok entries ∧
      doc = mkObj [
        ("meta", some (mkObj [
          ("user", some (mkObj [
            ("id", uid),
            ("displayName", udisplayName),
            ("username", uusername),
            ("profilePicture", uprofilePicture),
            ("trainDistance", utrainDistance),
            ("totalDistance", utrainDistance),
            ("trainDuration", utrainDuration),
            ("totalDuration", utrainDuration),
            ("points", upoints),
            ("mastodonUrl", umastodonUrl),
            ("privateProfile", uprivateProfile),
            ("preventIndex", upreventIndex),
            ("likes_enabled", ulikesEnabled),
            ("pointsEnabled", some (.bool true)),
            ("userInvisibleToMe", some (.bool false)),
            ("muted", some (.bool false)),
            ("following", some (.bool false)),
            ("followPending", some (.bool false)),
            ("followedBy", some (.bool false))])),
          ("from", some (.str f)),
          ("to", some (.str t)),
          ("exportedAt", some (.str n))])),
        ("data", some (.arr entries))] := by
  unfold exportData at h
  obtain ⟨d, hd, h⟩ := bindOk h
  obtain ⟨uid, h1, h⟩ := bindOk h
  obtain ⟨udisplayName, h2, h⟩ := bindOk h
  obtain ⟨uusername, h3, h⟩ := bindOk h
  obtain ⟨uprofilePicture, h4, h⟩ := bindOk h
  obtain ⟨utrainDistance, h5, h⟩ := bindOk h
  obtain ⟨utrainDuration, h6, h⟩ := bindOk h
  obtain ⟨upoints, h7, h⟩ := bindOk h
  obtain ⟨umastodonUrl, h8, h⟩ := bindOk h
  obtain ⟨uprivateProfile, h9, h⟩ := bindOk h
  obtain ⟨upreventIndex, h10, h⟩ := bindOk h
  obtain ⟨ulikesEnabled, h11, h⟩ := bindOk h
  obtain ⟨entries, h12, h⟩ := bindOk h
  refine ⟨d, uid, udisplayName, uusername, uprofilePicture, utrainDistance,
    utrainDuration, upoints, umastodonUrl, uprivateProfile, upreventIndex,
    ulikesEnabled, entries, hd, h1, h2, h3, h4, h5, h6, h7, h8, h9, h10, h11,
    h12, ?_⟩
  exact (Except.ok.inj h).symm

/-- C6: for every profile and status list, a produced export document's
`meta.user` carries the fixed literal fields of lines 180–185 —
`pointsEnabled = true` and the five relationship flags `= false` — whatever
the source profile holds. -/
theorem exportData_fixed_literals (p : Json) (ss : List Json) (f t n : String)
    (doc : Json) (h : exportData p ss f t n = .ok doc) :
    getAt doc ["meta", "user", "pointsEnabled"] = some (.bool true) ∧
    getAt doc ["meta", "user", "userInvisibleToMe"] = some (.bool false) ∧
    getAt doc ["meta", "user", "muted"] = some (.bool false) ∧
    getAt doc ["meta", "user", "following"] = some (.bool false) ∧
    getAt doc ["meta", "user", "followPending"] = some (.bool false) ∧
    getAt doc ["meta", "user", "followedBy"] = some (.bool false) := by
  obtain ⟨d, uid, udn, uun, upp, utdist, utdur, upts, umast, upriv, uprev,
    ulik, entries, hd, h1, h2, h3, h4, h5, h6, h7, h8, h9, h10, h11, h12,
    hdoc⟩ := exportData_shape h
  subst hdoc
  refine ⟨?_, ?_, ?_, ?_, ?_, ?_⟩ <;>
    simp [getAt, get_mkObj, lookupOpt]

/-- Witness for C6 at a minimal profile and an empty status list. -/
theorem exportData_fixed_literals_witness :
    ∃ doc, exportData (Json.obj [("data", Json.obj [])]) [] ("f") ("t") ("n") =
        Except.ok doc ∧
      (getAt doc ["meta", "user", "pointsEnabled"] = some (.bool true) ∧
       getAt doc ["meta", "user", "userInvisibleToMe"] = some (.bool false) ∧
       getAt doc ["meta", "user", "muted"] = some (.bool false) ∧
       getAt doc ["meta", "user", "following"] = some (.bool false) ∧
       getAt doc ["meta", "user", "followPending"] = some (.bool false) ∧
       getAt doc ["meta", "user", "followedBy"] = some (.bool false)) :=
  by
  refine ⟨_, rfl, ?_⟩
  exact exportData_fixed_literals (Json.obj [("data", Json.obj [])]) []
    ("f") ("t") ("n") _ rfl

/-- C9: in every produced export document, `meta.user.totalDistance` is the
same value as `meta.user.trainDistance` and `meta.user.totalDuration` the
same as `meta.user.trainDuration`: lines 171–174 source both totals from the
profile's train fields. -/
theorem exportData_total_copies_train_fields (p : Json) (ss : List Json)
    (f t n : String) (doc : Json) (h : exportData p ss f t n = .ok doc) :
    getAt doc ["meta", "user", "totalDistance"] =
      getAt doc ["meta", "user", "trainDistance"] ∧
    getAt doc ["meta", "user", "totalDuration"] =
      getAt doc ["meta", "user", "trainDuration"] := by
  obtain ⟨d, uid, udn, uun, upp, utdist, utdur, upts, umast, upriv, uprev,
    ulik, entries, hd, h1, h2, h3, h4, h5, h6, h7, h8, h9, h10, h11, h12,
    hdoc⟩ := exportData_shape h
  subst hdoc
  constructor
  · cases utdist <;> simp [getAt, get_mkObj, lookupOpt]
  · cases utdur <;> simp [getAt, get_mkObj, lookupOpt]

/-- Witness for C9 at a profile carrying distinct train totals. -/
theorem exportData_total_copies_train_fields_witness :
    ∃ doc, exportData (Json.obj [("data", Json.obj [("trainDistance", Json.num 42),
        ("trainDuration", Json.num 7)])]) [] ("f") ("t") ("n") = Except.ok doc ∧
      (getAt doc ["meta", "user", "totalDistance"] =
        getAt doc ["meta", "user", "trainDistance"] ∧
       getAt doc ["meta", "user", "totalDuration"] =
        getAt doc ["meta", "user", "trainDuration"]) :=
  by
  refine ⟨_, rfl, ?_⟩
  exact exportData_total_copies_train_fields
    (Json.obj [("data", Json.obj [("trainDistance", Json.num 42),
      ("trainDuration", Json.num 7)])]) [] ("f") ("t") ("n") _ rfl

/-- Counterexample to C1 as stated: with the profile and status list both
held fixed, two executions of the transform at different wall-clock times
(line 189 evaluates `new Date().toISOString()`) produce documents that are
not identical — they differ in `meta.exportedAt`. -/
theorem exportData_not_identical_across_runs_cex :
    exportData (Json.obj [("data", Json.obj [])]) []
      ("2024-01-05T00:00:00.000Z") ("2024-02-10T00:00:00.000Z")
      ("2024-03-01T10:00:00.000Z") ≠
    exportData (Json.obj [("data", Json.obj [])]) []
      ("2024-01-05T00:00:00.000Z") ("2024-02-10T00:00:00.000Z")
      ("2024-03-01T11:00:00.000Z") := by
  intro h
  have h2 := congrArg (fun x =>
    match x with
    | Except.ok d => jsStr (getAt d ["meta", "exportedAt"])
    | Except.error _ => "") h
  exact absurd h2 (by decide)

/-- C1 (amended): the transform is a pure function of the profile, the
status list and the export wall-clock timestamp; two runs on the same
profile and status list produce byte-for-byte identical documents except for
`meta.exportedAt`, which carries each run's own timestamp — `data`,
`meta.user`, `meta.from` and `meta.to` all coincide. -/
theorem exportData_deterministic_modulo_exportedAt (p : Json) (ss : List Json)
    (f t n1 n2 : String) (d1 d2 : Json)
    (h1 : exportData p ss f t n1 = .ok d1)
    (h2 : exportData p ss f t n2 = .ok d2) :
    d1.get ("data") = d2.get ("data") ∧
    getAt d1 ["meta", "user"] = getAt d2 ["meta", "user"] ∧
    getAt d1 ["meta", "from"] = getAt d2 ["meta", "from"] ∧
    getAt d1 ["meta", "to"] = getAt d2 ["meta", "to"] ∧
    getAt d1 ["meta", "exportedAt"] = some (.str n1) ∧
    getAt d2 ["meta", "exportedAt"] = some (.str n2) := by
  obtain ⟨d, uid, udn, uun, upp, utdist, utdur, upts, umast, upriv, uprev,
    ulik, entries, hd, g1, g2, g3, g4, g5, g6, g7, g8, g9, g10, g11, g12,
    hdoc1⟩ := exportData_shape h1
  obtain ⟨d', uid', udn', uun', upp', utdist', utdur', upts', umast', upriv',
    uprev', ulik', entries', hd', k1, k2, k3, k4, k5, k6, k7, k8, k9, k10,
    k11, k12, hdoc2⟩ := exportData_shape h2
  have ed : d' = d := Except.ok.inj (hd'.symm.trans hd)
  subst ed
  have e1 : uid' = uid := Except.ok.inj (k1.symm.trans g1)
  have e2 : udn' = udn := Except.ok.inj (k2.symm.trans g2)
  have e3 : uun' = uun := Except.ok.inj (k3.symm.trans g3)
  have e4 : upp' = upp := Except.ok.inj (k4.symm.trans g4)
  have e5 : utdist' = utdist := Except.ok.inj (k5.symm.trans g5)
  have e6 : utdur' = utdur := Except.ok.inj (k6.symm.trans g6)
  have e7 : upts' = upts := Except.ok.inj (k7.symm.trans g7)
  have e8 : umast' = umast := Except.ok.inj (k8.symm.trans g8)
  have e9 : upriv' = upriv := Except.ok.inj (k9.symm.trans g9)
  have e10 : uprev' = uprev := Except.ok.inj (k10.symm.trans g10)
  have e11 : ulik' = ulik := Except.ok.inj (k11.symm.trans g11)
  have e12 : entries' = entries := Except.ok.inj (k12.symm.trans g12)
  subst e1 e2 e3 e4 e5 e6 e7 e8 e9 e10 e11 e12
  subst hdoc1
  subst hdoc2
  refine ⟨?_, ?_, ?_, ?_, ?_, ?_⟩ <;>
    simp [getAt, get_mkObj, lookupOpt]

/-- Witness for C1's amended theorem at a minimal profile, empty status list
and two distinct export timestamps. -/
theorem exportData_deterministic_modulo_exportedAt_witness :
    ∃ d1 d2, exportData (Json.obj [("data", Json.obj [])]) [] ("f") ("t") ("n1") =
        Except.ok d1 ∧
      exportData (Json.obj [("data", Json.obj [])]) [] ("f") ("t") ("n2") =
        Except.ok d2 ∧
      (d1.get ("data") = d2.get ("data") ∧
       getAt d1 ["meta", "user"] = getAt d2 ["meta", "user"] ∧
       getAt d1 ["meta", "from"] = getAt d2 ["meta", "from"] ∧
       getAt d1 ["meta", "to"] = getAt d2 ["meta", "to"] ∧
       getAt d1 ["meta", "exportedAt"] = some (.str ("n1")) ∧
       getAt d2 ["meta", "exportedAt"] = some (.str ("n2"))) := by
  refine ⟨_, _, rfl, rfl, ?_⟩
  exact exportData_deterministic_modulo_exportedAt
    (Json.obj [("data", Json.obj [])]) [] ("f") ("t") ("n1") ("n2") _ _ rfl rfl

/-- Successful status projections are exactly the evaluations of the
`{ status, trip }` literal of lines 191–236. -/
theorem mapStatus_shape {s : Json} {entry : Json} (h : mapStatus s = .ok entry) :
    ∃ sid sbody sbodyMentions suser susername sprofilePicture spreventIndex
      sbusiness svisibility slikes sliked sisLikable sclient screatedAt strain
      sevent suserDetails stags ttrip tcategory tnumber tlineName
      tjourneyNumber torig oid oname olatitude olongitude oibnr orilIdentifier
      tdest did dname dlatitude dlongitude dibnr drilIdentifier tstopovers,
      pget (some s) ("id") = .ok sid ∧
      pget (some s) ("body") = .ok sbody ∧
      pget (some s) ("bodyMentions") = .ok sbodyMentions ∧
      pget (some s) ("user") = .ok suser ∧
      pget (some s) ("username") = .ok susername ∧
      pget (some s) ("profilePicture") = .ok sprofilePicture ∧
      pget (some s) ("preventIndex") = .ok spreventIndex ∧
      pget (some s) ("business") = .ok sbusiness ∧
      pget (some s) ("visibility") = .ok svisibility ∧
      pget (some s) ("likes") = .ok slikes ∧
      pget (some s) ("liked") = .ok sliked ∧
      pget (some s) ("isLikable") = .ok sisLikable ∧
      pget (some s) ("client") = .ok sclient ∧
      pget (some s) ("createdAt") = .ok screatedAt ∧
      pget (some s) ("train") = .ok strain ∧
      pget (some s) ("event") = .ok sevent ∧
      pget (some s) ("userDetails") = .ok suserDetails ∧
      pget (some s) ("tags") = .ok stags ∧
      pget strain ("trip") = .ok ttrip ∧
      pget strain ("category") = .ok tcategory ∧
      pget strain ("number") = .ok tnumber ∧
      pget strain ("lineName") = .ok tlineName ∧
      pget strain ("journeyNumber") = .ok tjourneyNumber ∧
      pget strain ("origin") = .ok torig ∧
      pget torig ("id") = .ok oid ∧
      pget torig ("name") = .ok oname ∧
      pget torig ("latitude") = .ok olatitude ∧
      pget torig ("longitude") = .ok olongitude ∧
      pget torig ("ibnr") = .ok oibnr ∧
      pget torig ("rilIdentifier") = .ok orilIdentifier ∧
      pget strain ("destination") = .ok tdest ∧
      pget tdest ("id") = .ok did ∧
      pget tdest ("name") = .ok dname ∧
      pget tdest ("latitude") = .ok dlatitude ∧
      pget tdest ("longitude") = .ok dlongitude ∧
      pget tdest ("ibnr") = .ok dibnr ∧
      pget tdest ("rilIdentifier") = .ok drilIdentifier ∧
      pget strain ("stopovers") = .ok tstopovers ∧
      entry = mkObj [
        ("status", some (mkObj [
          ("id", sid),
          ("body", some (jsOr sbody (.str ""))),
          ("bodyMentions", some (jsOr sbodyMentions (.arr []))),
          ("user", suser),
          ("username", susername),
          ("profilePicture", sprofilePicture),
          ("preventIndex", spreventIndex),
          ("business", sbusiness),
          ("visibility", svisibility),
          ("likes", slikes),
          ("liked", sliked),
          ("isLikable", sisLikable),
          ("client", sclient),
          ("createdAt", screatedAt),
          ("train", strain),
          ("event", sevent),
          ("userDetails", suserDetails),
          ("tags", some (jsOr stags (.arr [])))])),
        ("trip", some (mkObj [
          ("id", ttrip),
          ("category", tcategory),
          ("number", tnumber),
          ("lineName", tlineName),
          ("journeyNumber", tjourneyNumber),
          ("origin", some (mkObj [
            ("id", oid),
            ("name", oname),
            ("latitude", olatitude),
            ("longitude", olongitude),
            ("ibnr", oibnr),
            ("rilIdentifier", orilIdentifier)])),
          ("destination", some (mkObj [
            ("id", did),
            ("name", dname),
            ("latitude", dlatitude),
            ("longitude", dlongitude),
            ("ibnr", dibnr),
            ("rilIdentifier", drilIdentifier)])),
          ("stopovers", some (jsOr tstopovers (.arr [])))]))] := by
  unfold mapStatus at h
  obtain ⟨sid, e1, h⟩ := bindOk h
  obtain ⟨sbody, e2, h⟩ := bindOk h
  obtain ⟨sbodyMentions, e3, h⟩ := bindOk h
  obtain ⟨suser, e4, h⟩ := bindOk h
  obtain ⟨susername, e5, h⟩ := bindOk h
  obtain ⟨sprofilePicture, e6, h⟩ := bindOk h
  obtain ⟨spreventIndex, e7, h⟩ := bindOk h
  obtain ⟨sbusiness, e8, h⟩ := bindOk h
  obtain ⟨svisibility, e9, h⟩ := bindOk h
  obtain ⟨slikes, e10, h⟩ := bindOk h
  obtain ⟨sliked, e11, h⟩ := bindOk h
  obtain ⟨sisLikable, e12, h⟩ := bindOk h
  obtain ⟨sclient, e13, h⟩ := bindOk h
  obtain ⟨screatedAt, e14, h⟩ := bindOk h
  obtain ⟨strain, e15, h⟩ := bindOk h
  obtain ⟨sevent, e16, h⟩ := bindOk h
  obtain ⟨suserDetails, e17, h⟩ := bindOk h
  obtain ⟨stags, e18, h⟩ := bindOk h
  obtain ⟨ttrip, e19, h⟩ := bindOk h
  obtain ⟨tcategory, e20, h⟩ := bindOk h
  obtain ⟨tnumber, e21, h⟩ := bindOk h
  obtain ⟨tlineName, e22, h⟩ := bindOk h
  obtain ⟨tjourneyNumber, e23, h⟩ := bindOk h
  obtain ⟨torig, e24, h⟩ := bindOk h
  obtain ⟨oid, e25, h⟩ := bindOk h
  obtain ⟨oname, e26, h⟩ := bindOk h
  obtain ⟨olatitude, e27, h⟩ := bindOk h
  obtain ⟨olongitude, e28, h⟩ := bindOk h
  obtain ⟨oibnr, e29, h⟩ := bindOk h
  obtain ⟨orilIdentifier, e30, h⟩ := bindOk h
  obtain ⟨tdest, e31, h⟩ := bindOk h
  obtain ⟨did, e32, h⟩ := bindOk h
  obtain ⟨dname, e33, h⟩ := bindOk h
  obtain ⟨dlatitude, e34, h⟩ := bindOk h
  obtain ⟨dlongitude, e35, h⟩ := bindOk h
  obtain ⟨dibnr, e36, h⟩ := bindOk h
  obtain ⟨drilIdentifier, e37, h⟩ := bindOk h
  obtain ⟨tstopovers, e38, h⟩ := bindOk h
  exact ⟨sid, sbody, sbodyMentions, suser, susername, sprofilePicture,
    spreventIndex, sbusiness, svisibility, slikes, sliked, sisLikable,
    sclient, screatedAt, strain, sevent, suserDetails, stags, ttrip,
    tcategory, tnumber, tlineName, tjourneyNumber, torig, oid, oname,
    olatitude, olongitude, oibnr, orilIdentifier, tdest, did, dname,
    dlatitude, dlongitude, dibnr, drilIdentifier, tstopovers,
    e1, e2, e3, e4, e5, e6, e7, e8, e9, e10, e11, e12, e13, e14, e15, e16,
    e17, e18, e19, e20, e21, e22, e23, e24, e25, e26, e27, e28, e29, e30,
    e31, e32, e33, e34, e35, e36, e37, e38, (Except.ok.inj h).symm⟩

/-- C7: a status record whose optional `body`, `bodyMentions`, `tags` or
`train.stopovers` fields are absent is projected to an entry carrying the
defaults `""`, `[]`, `[]` and `[]` at those keys — the keys are present in
the output, never missing. -/
theorem mapStatus_defaults_absent_fields (s tr entry : Json)
    (hbody : s.get ("body") = none)
    (hmen : s.get ("bodyMentions") = none)
    (htags : s.get ("tags") = none)
    (htr : s.get ("train") = some tr)
    (hstop : tr.get ("stopovers") = none)
    (h : mapStatus s = .ok entry) :
    getAt entry ["status", "body"] = some (.str "") ∧
    getAt entry ["status", "bodyMentions"] = some (.arr []) ∧
    getAt entry ["status", "tags"] = some (.arr []) ∧
    getAt entry ["trip", "stopovers"] = some (.arr []) := by
  obtain ⟨sid, sbody, sbodyMentions, suser, susername, sprofilePicture,
    spreventIndex, sbusiness, svisibility, slikes, sliked, sisLikable,
    sclient, screatedAt, strain, sevent, suserDetails, stags, ttrip,
    tcategory, tnumber, tlineName, tjourneyNumber, torig, oid, oname,
    olatitude, olongitude, oibnr, orilIdentifier, tdest, did, dname,
    dlatitude, dlongitude, dibnr, drilIdentifier, tstopovers,
    e1, e2, e3, e4, e5, e6, e7, e8, e9, e10, e11, e12, e13, e14, e15, e16,
    e17, e18, e19, e20, e21, e22, e23, e24, e25, e26, e27, e28, e29, e30,
    e31, e32, e33, e34, e35, e36, e37, e38, hentry⟩ := mapStatus_shape h
  subst hentry
  cases s
  case null => simp [Json.get] at htr
  case bool b => simp [Json.get] at htr
  case num n2 => simp [Json.get] at htr
  case str s2 => simp [Json.get] at htr
  case arr es => simp [Json.get] at htr
  case obj fs =>
    simp only [Json.get] at hbody hmen htags htr
    simp only [pget, Except.ok.injEq] at e2 e3 e15 e18
    rw [hbody] at e2
    rw [hmen] at e3
    rw [htags] at e18
    rw [htr] at e15
    subst e2
    subst e3
    subst e18
    subst e15
    cases tr
    case null => simp [pget] at e19
    case obj tfs =>
      simp only [Json.get] at hstop
      simp only [pget, Except.ok.injEq] at e38
      rw [hstop] at e38
      subst e38
      refine ⟨?_, ?_, ?_, ?_⟩ <;> simp [getAt, get_mkObj, lookupOpt, jsOr]
    all_goals
      simp only [pget, Except.ok.injEq] at e38
      subst e38
      refine ⟨?_, ?_, ?_, ?_⟩ <;> simp [getAt, get_mkObj, lookupOpt, jsOr]

/-- Witness for C7 at a record carrying only `id` and a minimal `train`. -/
theorem mapStatus_defaults_absent_fields_witness :
    ∃ entry, mapStatus (Json.obj [("id", Json.num 1),
        ("train", Json.obj [("trip", Json.num 3), ("origin", Json.obj []),
          ("destination", Json.obj [])])]) = Except.ok entry ∧
      (getAt entry ["status", "body"] = some (.str "") ∧
       getAt entry ["status", "bodyMentions"] = some (.arr []) ∧
       getAt entry ["status", "tags"] = some (.arr []) ∧
       getAt entry ["trip", "stopovers"] = some (.arr [])) := by
  refine ⟨_, rfl, ?_⟩
  exact mapStatus_defaults_absent_fields
    (Json.obj [("id", Json.num 1),
      ("train", Json.obj [("trip", Json.num 3), ("origin", Json.obj []),
        ("destination", Json.obj [])])])
    (Json.obj [("trip", Json.num 3), ("origin", Json.obj []),
      ("destination", Json.obj [])])
    _ rfl rfl rfl rfl rfl rfl

/-- Counterexample to C2 as stated: a sequence of two valid pages whose
first page is empty.  The loop stops at the empty first page, so the
accumulated list has length 0, while the per-page item counts sum to 1. -/
theorem paginate_early_empty_cex :
    (∀ r ∈ [FetchResult.success (Json.obj [("data", Json.arr [])]),
            FetchResult.success (Json.obj [("data", Json.arr [Json.num 1])])],
      (pageData r).isSome = true) ∧
    (paginate [FetchResult.success (Json.obj [("data", Json.arr [])]),
               FetchResult.success (Json.obj [("data", Json.arr [Json.num 1])])]).1.length ≠
      (List.map (fun r => (pageItems r).length)
        [FetchResult.success (Json.obj [("data", Json.arr [])]),
         FetchResult.success (Json.obj [("data", Json.arr [Json.num 1])])]).sum := by
  exact ⟨by decide, by decide⟩

/-- C2 (amended): for every sequence of valid pages in which only the final
page may be empty — which is how a paginated server answers — the
accumulated status list is the concatenation of the pages in ascending page
order with each page's internal order preserved; in particular its length is
the sum of the per-page item counts. -/
theorem paginate_concat_of_wellformed (resps : List FetchResult)
    (hvalid : ∀ r ∈ resps, (pageData r).isSome = true)
    (hbody : ∀ i : Nat, i + 1 < resps.length →
      (pageItems (resps.getD i .failure)).length ≠ 0) :
    (paginate resps).1 = (resps.map pageItems).flatten := by
  induction resps with
  | nil => rfl
  | cons r rest ih =>
    obtain ⟨items, hitems⟩ :=
      Option.isSome_iff_exists.mp (hvalid r (List.mem_cons_self _ _))
    have hpi : pageItems r = items := by simp [pageItems, hitems]
    show (paginateAux (r :: rest)).1 = _
    by_cases hlen : items.length > 0
    · have hrec : (paginateAux rest).1 = (rest.map pageItems).flatten := by
        refine ih (fun r' hr' => hvalid r' (List.mem_cons_of_mem _ hr')) ?_
        intro i hi
        have := hbody (i + 1) (by simpa using Nat.succ_lt_succ hi)
        simpa using this
      simp [paginateAux, hitems, hlen, hpi, hrec]
    · cases rest with
      | nil => simp [paginateAux, hitems, hlen, hpi]
      | cons r2 rest2 =>
        exact absurd (by simpa [hpi] using hlen) (hbody 0 (by simp))

/-- Witness for C2's amended theorem at a one-item page followed by the
terminating empty page. -/
theorem paginate_concat_of_wellformed_witness :
    (∀ r ∈ [FetchResult.success (Json.obj [("data", Json.arr [Json.num 1])]),
            FetchResult.success (Json.obj [("data", Json.arr [])])],
      (pageData r).isSome = true) ∧
    (∀ i : Nat, i + 1 <
        ([FetchResult.success (Json.obj [("data", Json.arr [Json.num 1])]),
          FetchResult.success (Json.obj [("data", Json.arr [])])] : List FetchResult).length →
      (pageItems
        (([FetchResult.success (Json.obj [("data", Json.arr [Json.num 1])]),
           FetchResult.success (Json.obj [("data", Json.arr [])])] : List FetchResult).getD
          i .failure)).length ≠ 0) ∧
    (paginate [FetchResult.success (Json.obj [("data", Json.arr [Json.num 1])]),
               FetchResult.success (Json.obj [("data", Json.arr [])])]).1 =
      (List.map pageItems
        [FetchResult.success (Json.obj [("data", Json.arr [Json.num 1])]),
         FetchResult.success (Json.obj [("data", Json.arr [])])]).flatten := by
  refine ⟨by decide, ?_, ?_⟩
  · intro i hi
    have hi0 : i = 0 := by simp at hi; omega
    subst hi0
    decide
  · refine paginate_concat_of_wellformed _ (by decide) ?_
    intro i hi
    have hi0 : i = 0 := by simp at hi; omega
    subst hi0
    decide

theorem paginateAux_cons_none {r : FetchResult} (rest : List FetchResult)
    (hpd : pageData r = none) : paginateAux (r :: rest) = ([], 1) := by
  simp [paginateAux, hpd]

theorem paginateAux_cons_stop {r : FetchResult} (rest : List FetchResult)
    {items : List Json} (hpd : pageData r = some items)
    (hlen : ¬ items.length > 0) : paginateAux (r :: rest) = (items, 1) := by
  simp [paginateAux, hpd, hlen]

theorem paginateAux_cons_go {r : FetchResult} (rest : List FetchResult)
    {items : List Json} (hpd : pageData r = some items)
    (hlen : items.length > 0) :
    paginateAux (r :: rest) =
      (items ++ (paginateAux rest).1, (paginateAux rest).2 + 1) := by
  simp [paginateAux, hpd, hlen]

/-- C3: if page `k + 1` (1-based) of the response sequence is a valid page
with zero items, the loop issues at most `k + 1` requests — it never
requests any higher page number; and when every earlier page is valid and
non-empty, it reaches that page and stops right there, with exactly `k + 1`
requests issued. -/
theorem paginate_stops_at_first_empty (resps : List FetchResult) (k : Nat)
    (hk : k < resps.length)
    (hempty : pageData (resps.getD k .failure) = some []) :
    (paginate resps).2 ≤ k + 1 ∧
    ((∀ i : Nat, i < k → (pageData (resps.getD i .failure)).isSome = true ∧
        (pageItems (resps.getD i .failure)).length ≠ 0) →
      (paginate resps).2 = k + 1) := by
  induction resps generalizing k with
  | nil => simp at hk
  | cons r rest ih =>
    cases k with
    | zero =>
      have hr : pageData r = some [] := by simpa using hempty
      have hstop : paginateAux (r :: rest) = ([], 1) :=
        paginateAux_cons_stop rest hr (by simp)
      constructor
      · show (paginateAux (r :: rest)).2 ≤ 1
        rw [hstop]
      · intro _
        show (paginateAux (r :: rest)).2 = 1
        rw [hstop]
    | succ j =>
      have hk' : j < rest.length := by simpa using hk
      have hempty' : pageData (rest.getD j .failure) = some [] := by
        simpa using hempty
      have ihj := ih j hk' hempty'
      simp only [paginate] at ihj
      cases hpd : pageData r with
      | none =>
        constructor
        · show (paginateAux (r :: rest)).2 ≤ j + 2
          rw [paginateAux_cons_none rest hpd]
          omega
        · intro hgood
          have h0 := (hgood 0 (Nat.succ_pos _)).1
          rw [show (r :: rest).getD 0 .failure = r from rfl, hpd] at h0
          simp at h0
      | some items =>
        by_cases hlen : items.length > 0
        · constructor
          · show (paginateAux (r :: rest)).2 ≤ j + 2
            rw [paginateAux_cons_go rest hpd hlen]
            have := ihj.1
            show (paginateAux rest).2 + 1 ≤ j + 2
            omega
          · intro hgood
            have heq : (paginateAux rest).2 = j + 1 := by
              refine ihj.2 ?_
              intro i hi
              have := hgood (i + 1) (Nat.succ_lt_succ hi)
              simpa using this
            show (paginateAux (r :: rest)).2 = j + 2
            rw [paginateAux_cons_go rest hpd hlen]
            show (paginateAux rest).2 + 1 = j + 2
            omega
        · have hstop := paginateAux_cons_stop rest hpd hlen
          constructor
          · show (paginateAux (r :: rest)).2 ≤ j + 2
            rw [hstop]
            show 1 ≤ j + 2
            omega
          · intro hgood
            have h0 := (hgood 0 (Nat.succ_pos _)).2
            rw [show (r :: rest).getD 0 .failure = r from rfl] at h0
            have hnil : items = [] := by
              cases items with
              | nil => rfl
              | cons a l => exact absurd (by simp) hlen
            subst hnil
            simp [pageItems, hpd] at h0

/-- Witness for C3: a one-item page then an empty page; exactly two
requests are issued. -/
theorem paginate_stops_at_first_empty_witness :
    1 < ([FetchResult.success (Json.obj [("data", Json.arr [Json.num 1])]),
          FetchResult.success (Json.obj [("data", Json.arr [])])] : List FetchResult).length ∧
    pageData (([FetchResult.success (Json.obj [("data", Json.arr [Json.num 1])]),
                FetchResult.success (Json.obj [("data", Json.arr [])])] : List FetchResult).getD
      1 .failure) = some [] ∧
    ((paginate [FetchResult.success (Json.obj [("data", Json.arr [Json.num 1])]),
                FetchResult.success (Json.obj [("data", Json.arr [])])]).2 ≤ 1 + 1 ∧
     ((∀ i : Nat, i < 1 →
        (pageData (([FetchResult.success (Json.obj [("data", Json.arr [Json.num 1])]),
                     FetchResult.success (Json.obj [("data", Json.arr [])])] : List FetchResult).getD
          i .failure)).isSome = true ∧
        (pageItems (([FetchResult.success (Json.obj [("data", Json.arr [Json.num 1])]),
                      FetchResult.success (Json.obj [("data", Json.arr [])])] : List FetchResult).getD
          i .failure)).length ≠ 0) →
      (paginate [FetchResult.success (Json.obj [("data", Json.arr [Json.num 1])]),
                 FetchResult.success (Json.obj [("data", Json.arr [])])]).2 = 1 + 1)) := by
  refine ⟨by decide, rfl, ?_⟩
  exact paginate_stops_at_first_empty
    [FetchResult.success (Json.obj [("data", Json.arr [Json.num 1])]),
     FetchResult.success (Json.obj [("data", Json.arr [])])] 1 (by decide) rfl

/-- C4: when page `k + 1` (1-based) fails — a thrown fetch error, or a
response whose `data` is missing or not an array — after `k` valid
non-empty pages, the loop stops there: page `k + 1` is requested exactly
once (no retry) and no higher page is ever requested, the accumulator holds
exactly the concatenation of pages `1 … k`, and the rest of the run
(statistics, transform, write) behaves exactly as if the response sequence
had ended after page `k`. -/
theorem paginate_break_on_bad_page (resps : List FetchResult) (k : Nat)
    (hk : k < resps.length)
    (hbad : pageData (resps.getD k .failure) = none)
    (hgood : ∀ i : Nat, i < k → (pageData (resps.getD i .failure)).isSome = true ∧
        (pageItems (resps.getD i .failure)).length ≠ 0) :
    (paginate resps).1 = ((resps.take k).map pageItems).flatten ∧
    (paginate resps).2 = k + 1 ∧
    paginate resps = paginate (resps.take k) ∧
    ∀ (p : Json) (n : String),
      runBody p resps n = runBody p (resps.take k) n := by
  have key : (paginate resps).1 = ((resps.take k).map pageItems).flatten ∧
      (paginate resps).2 = k + 1 ∧ paginate resps = paginate (resps.take k) := by
    induction resps generalizing k with
    | nil => simp at hk
    | cons r rest ih =>
      cases k with
      | zero =>
        have hr : pageData r = none := by simpa using hbad
        have hstop := paginateAux_cons_none rest hr
        refine ⟨?_, ?_, ?_⟩
        · show (paginateAux (r :: rest)).1 = _
          rw [hstop]
          rfl
        · show (paginateAux (r :: rest)).2 = 1
          rw [hstop]
        · show paginateAux (r :: rest) = paginateAux []
          rw [hstop]
          rfl
      | succ j =>
        have hk' : j < rest.length := by simpa using hk
        have hbad' : pageData (rest.getD j .failure) = none := by simpa using hbad
        have hgood' : ∀ i : Nat, i < j →
            (pageData (rest.getD i .failure)).isSome = true ∧
            (pageItems (rest.getD i .failure)).length ≠ 0 := by
          intro i hi
          have := hgood (i + 1) (Nat.succ_lt_succ hi)
          simpa using this
        have ihj := ih j hk' hbad' hgood'
        have h0 := hgood 0 (Nat.succ_pos _)
        rw [show (r :: rest).getD 0 .failure = r from rfl] at h0
        obtain ⟨items, hitems⟩ := Option.isSome_iff_exists.mp h0.1
        have hlen : items.length > 0 := by
          cases items with
          | nil =>
            exfalso
            apply h0.2
            simp [pageItems, hitems]
          | cons a l => simp
        have hgo := paginateAux_cons_go rest hitems hlen
        have htk : (r :: rest).take (j + 1) = r :: rest.take j := rfl
        refine ⟨?_, ?_, ?_⟩
        · show (paginateAux (r :: rest)).1 = _
          rw [hgo, htk]
          show items ++ (paginateAux rest).1 =
            (pageItems r :: (rest.take j).map pageItems).flatten
          rw [show (paginate rest).1 = (paginateAux rest).1 from rfl] at ihj
          rw [ihj.1]
          simp [pageItems, hitems]
        · show (paginateAux (r :: rest)).2 = j + 2
          rw [hgo]
          show (paginateAux rest).2 + 1 = j + 2
          have := ihj.2.1
          rw [show (paginate rest).2 = (paginateAux rest).2 from rfl] at this
          omega
        · show paginateAux (r :: rest) = paginateAux (r :: rest.take j)
          rw [hgo, paginateAux_cons_go (rest.take j) hitems hlen]
          rw [show paginate rest = paginateAux rest from rfl,
            show paginate (rest.take j) = paginateAux (rest.take j) from rfl] at ihj
          rw [ihj.2.2]
  refine ⟨key.1, key.2.1, key.2.2, ?_⟩
  intro p n
  simp only [runBody, key.2.2]

/-- Witness for C4: one valid non-empty page followed by a failed fetch. -/
theorem paginate_break_on_bad_page_witness :
    1 < ([FetchResult.success (Json.obj [("data", Json.arr [Json.num 1])]),
          FetchResult.failure] : List FetchResult).length ∧
    pageData (([FetchResult.success (Json.obj [("data", Json.arr [Json.num 1])]),
                FetchResult.failure] : List FetchResult).getD 1 .failure) = none ∧
    ((paginate [FetchResult.success (Json.obj [("data", Json.arr [Json.num 1])]),
                FetchResult.failure]).1 =
      ((([FetchResult.success (Json.obj [("data", Json.arr [Json.num 1])]),
          FetchResult.failure] : List FetchResult).take 1).map pageItems).flatten ∧
     (paginate [FetchResult.success (Json.obj [("data", Json.arr [Json.num 1])]),
                FetchResult.failure]).2 = 1 + 1 ∧
     paginate [FetchResult.success (Json.obj [("data", Json.arr [Json.num 1])]),
               FetchResult.failure] =
      paginate (([FetchResult.success (Json.obj [("data", Json.arr [Json.num 1])]),
                  FetchResult.failure] : List FetchResult).take 1) ∧
     ∀ (p : Json) (n : String),
      runBody p [FetchResult.success (Json.obj [("data", Json.arr [Json.num 1])]),
                 FetchResult.failure] n =
        runBody p (([FetchResult.success (Json.obj [("data", Json.arr [Json.num 1])]),
                     FetchResult.failure] : List FetchResult).take 1) n) := by
  refine ⟨by decide, rfl, ?_⟩
  refine paginate_break_on_bad_page _ 1 (by decide) rfl ?_
  intro i hi
  have hi0 : i = 0 := by omega
  subst hi0
  exact ⟨rfl, by decide⟩

/-- C8: a run whose pagination accumulated zero statuses skips the
statistics, the transform and the write (the guard at line 135) and falls
through to a normal completion: no exception reaches the top-level `catch`
and no file is produced. -/
theorem run_zero_statuses_writes_nothing (p : Json) (resps : List FetchResult)
    (n : String) (d : Option Json)
    (hd : pget (some p) ("data") = .ok d)
    (hid : (pget d ("id")).isOk = true)
    (hzero : (paginate resps).1 = []) :
    runBody p resps n = .ok none := by
  obtain ⟨uid, huid⟩ : ∃ v, pget d ("id") = .ok v := by
    cases hpg : pget d ("id") with
    | ok v => exact ⟨v, rfl⟩
    | error e => rw [hpg] at hid; simp [Except.isOk, Except.toBool] at hid
  have huname : ∃ v, pget d ("username") = .ok v := by
    cases d with
    | none => simp [pget] at huid
    | some v =>
      cases v with
      | null => simp [pget] at huid
      | obj fs => exact ⟨_, rfl⟩
      | bool b => exact ⟨_, rfl⟩
      | num m => exact ⟨_, rfl⟩
      | str s2 => exact ⟨_, rfl⟩
      | arr es => exact ⟨_, rfl⟩
  obtain ⟨uname, huname⟩ := huname
  unfold runBody
  rw [hd, okBind, huid, okBind, huname, okBind, hzero]
  rfl

/-- Witness for C8: a valid profile and a single empty page. -/
theorem run_zero_statuses_writes_nothing_witness :
    pget (some (Json.obj [("data", Json.obj [("id", Json.num 1),
        ("username", Json.str "alice")])])) ("data") =
      Except.ok (some (Json.obj [("id", Json.num 1), ("username", Json.str "alice")])) ∧
    (pget (some (Json.obj [("id", Json.num 1), ("username", Json.str "alice")]))
      ("id")).isOk = true ∧
    (paginate [FetchResult.success (Json.obj [("data", Json.arr [])])]).1 = [] ∧
    runBody (Json.obj [("data", Json.obj [("id", Json.num 1),
        ("username", Json.str "alice")])])
      [FetchResult.success (Json.obj [("data", Json.arr [])])] ("n") =
      .ok none := by
  refine ⟨rfl, rfl, rfl, ?_⟩
  exact run_zero_statuses_writes_nothing _ _ ("n") _ rfl rfl rfl

